import Mathlib

/-!
Verification development for the schema-driven C++ bridge generator
(`packages/react-native-codegen/src/generators/modules/GenerateModuleCpp.js`)
and the runtime reliability logging wrapper (`Libraries/Reliability/UserFlow.js`).

The JavaScript values are embedded shallowly: schema type annotations become an
inductive type, fallible generation steps return `Except String _` (the JS code
throws `Error` with a message), and template-literal assembly becomes pure
string concatenation.  JS type tags are open strings at runtime, so the
inductive carries an `unknownTypeAnnot tag` constructor standing for any
annotation whose tag lies outside the closed set handled by the generator;
its `typeTag` is the tag string itself, exactly as in JS where dispatch reads
the `.type` field.
-/

namespace RNCodegen

/-- Shallow embedding of `NativeModuleParamTypeAnnotation` (and the return
annotations) from `CodegenSchema`.  Each constructor corresponds to one JS
`.type` tag; `functionTypeAnnot` carries its parameter list (pairs of
parameter name and annotation) and return annotation, `nullableTypeAnnot`
is the nullability wrapper, `typeAliasTypeAnnot` the alias reference, and
`unknownTypeAnnot tag` an annotation with an unrecognized runtime tag. -/
inductive TypeAnnot where
  | reservedTypeAnnot (name : String)
  | stringTypeAnnot
  | booleanTypeAnnot
  | numberTypeAnnot
  | floatTypeAnnot
  | doubleTypeAnnot
  | int32TypeAnnot
  | arrayTypeAnnot
  | functionTypeAnnot (params : List (String × TypeAnnot)) (returnTypeAnnot : TypeAnnot)
  | genericObjectTypeAnnot
  | objectTypeAnnot
  | typeAliasTypeAnnot (name : String)
  | voidTypeAnnot
  | nullableTypeAnnot (inner : TypeAnnot)
  | unknownTypeAnnot (tag : String)

/-- The JS `.type` tag of an annotation, as read by the `switch` dispatch. -/
def typeTag : TypeAnnot → String
  | .reservedTypeAnnot _ => "ReservedTypeAnnotation"
  | .stringTypeAnnot => "StringTypeAnnotation"
  | .booleanTypeAnnot => "BooleanTypeAnnotation"
  | .numberTypeAnnot => "NumberTypeAnnotation"
  | .floatTypeAnnot => "FloatTypeAnnotation"
  | .doubleTypeAnnot => "DoubleTypeAnnotation"
  | .int32TypeAnnot => "Int32TypeAnnotation"
  | .arrayTypeAnnot => "ArrayTypeAnnotation"
  | .functionTypeAnnot _ _ => "FunctionTypeAnnotation"
  | .genericObjectTypeAnnot => "GenericObjectTypeAnnotation"
  | .objectTypeAnnot => "ObjectTypeAnnotation"
  | .typeAliasTypeAnnot _ => "TypeAliasTypeAnnotation"
  | .voidTypeAnnot => "VoidTypeAnnotation"
  | .nullableTypeAnnot _ => "NullableTypeAnnotation"
  | .unknownTypeAnnot tag => tag

/-- Modelled from the spec: the Nullable Unwrapper (section 4.2; the source
file `parsers/flow/modules/utils.js` exporting `unwrapNullable` is not under
`src/`).  It strips the nullability wrapper, returning the inner annotation
and a nullability flag; unwrapping is idempotent, so a doubly wrapped
annotation unwraps to the same inner annotation with the flag still true,
and a plain annotation is returned unchanged with flag false. -/
def unwrapNullable : TypeAnnot → TypeAnnot × Bool
  | .nullableTypeAnnot inner => ((unwrapNullable inner).1, true)
  | t => (t, false)

/-- Modelled from the spec: the Alias Resolver (section 4.1; the source file
`generators/modules/Utils.js` exporting `createAliasResolver` is not under
`src/`).  Identity lookup in the per-module alias table, no transitive
chasing; lookup of an unknown alias name is a fatal, surfaced error. -/
def createAliasResolver (aliases : List (String × TypeAnnot)) :
    String → Except String TypeAnnot :=
  fun aliasName =>
    match aliases.lookup aliasName with
    | some t => Except.ok t
    | none => Except.error ("Unable to resolve type alias " ++ aliasName)

/-- The alias-resolution step of `serializeArg` (GenerateModuleCpp.js lines
113-116): if the unwrapped annotation is a `TypeAliasTypeAnnotation` it is
resolved through the module alias resolver, otherwise it is kept as is. -/
def resolveParamAnnot (resolveAlias : String → Except String TypeAnnot) :
    TypeAnnot → Except String TypeAnnot
  | .typeAliasTypeAnnot name => resolveAlias name
  | t => Except.ok t

/-- The `wrap` closure inside `serializeArg` (GenerateModuleCpp.js lines
117-126): build `args[index]` followed by the conversion suffix and, when the
parameter is nullable, guard it with a null-or-undefined conditional that
yields `std::nullopt` in the absent branch. -/
def wrapExpr (index : Nat) (nullable : Bool) (suffix : String) : String :=
  let val := "args[" ++ toString index ++ "]"
  let expression := val ++ suffix
  if nullable then
    val ++ ".isNull() || " ++ val ++ ".isUndefined() ? std::nullopt : std::make_optional(" ++
      expression ++ ")"
  else
    expression

/-- The per-variant conversion suffix table of the `switch` in `serializeArg`
(GenerateModuleCpp.js lines 128-164).  `none` means the variant reaches a
`default` arm (the reserved arm with an unrecognized name, or the outer
`default`), where the source throws. -/
def conversionSuffix : TypeAnnot → Option String
  | .reservedTypeAnnot name => if name = "RootTag" then some ".getNumber()" else none
  | .stringTypeAnnot => some ".asString(rt)"
  | .booleanTypeAnnot => some ".asBool()"
  | .numberTypeAnnot => some ".asNumber()"
  | .floatTypeAnnot => some ".asNumber()"
  | .doubleTypeAnnot => some ".asNumber()"
  | .int32TypeAnnot => some ".asNumber()"
  | .arrayTypeAnnot => some ".asObject(rt).asArray(rt)"
  | .functionTypeAnnot _ _ => some ".asObject(rt).asFunction(rt)"
  | .genericObjectTypeAnnot => some ".asObject(rt)"
  | .objectTypeAnnot => some ".asObject(rt)"
  | .typeAliasTypeAnnot _ => none
  | .voidTypeAnnot => none
  | .nullableTypeAnnot _ => none
  | .unknownTypeAnnot _ => none

/-- The identifier interpolated into the unmatched-variant error message: the
reserved arm interpolates `realTypeAnnotation.name`, the outer `default`
interpolates `realTypeAnnotation.type`. -/
def unmatchedTag : TypeAnnot → String
  | .reservedTypeAnnot name => name
  | t => typeTag t

/-- Embedding of `serializeArg` (GenerateModuleCpp.js lines 104-164).  A
parameter is a pair of its name (`arg.1`) and its possibly nullable type
annotation (`arg.2`); the result is the single C++ extraction expression, or
the thrown error message. -/
def serializeArg (arg : String × TypeAnnot) (index : Nat)
    (resolveAlias : String → Except String TypeAnnot) : Except String String :=
  let typeAnnot0 := (unwrapNullable arg.2).1
  let nullable := (unwrapNullable arg.2).2
  match resolveParamAnnot resolveAlias typeAnnot0 with
  | Except.error e => Except.error e
  | Except.ok realTypeAnnot =>
    match conversionSuffix realTypeAnnot with
    | some suffix => Except.ok (wrapExpr index nullable suffix)
    | none =>
      Except.error ("Unknown prop type for \"" ++ arg.1 ++ ", found: " ++
        unmatchedTag realTypeAnnot ++ "\"")

/-- Name of a generated trampoline: the interpolation
`__hostFunction_<hasteModuleName>CxxSpecJSI_<methodName>` shared by
`HostFunctionTemplate` (line 42) and `ModuleTemplate` (line 66). -/
def hostFunctionName (hasteModuleName methodName : String) : String :=
  "__hostFunction_" ++ hasteModuleName ++ "CxxSpecJSI_" ++ methodName

/-- The `methodCall` string of `HostFunctionTemplate` (lines 39-40): the
target-qualified invocation with `rt` prepended to the serialized args. -/
def methodCallOf (hasteModuleName methodName : String) (args : List String) : String :=
  "static_cast<" ++ hasteModuleName ++ "CxxSpecJSI *>(&turboModule)->" ++ methodName ++
    "(" ++ String.intercalate ", " ("rt" :: args) ++ ");"

/-- The fixed signature line opening a trampoline in `HostFunctionTemplate`. -/
def trampolineSig (hasteModuleName methodName : String) : String :=
  "static jsi::Value " ++ hostFunctionName hasteModuleName methodName ++
    "(jsi::Runtime &rt, TurboModule &turboModule, const jsi::Value* args, size_t count) \x7b"

/-- Embedding of `HostFunctionTemplate` (GenerateModuleCpp.js lines 28-47). -/
def HostFunctionTemplate (hasteModuleName methodName : String) (isVoid : Bool)
    (args : List String) : String :=
  let methodCall := methodCallOf hasteModuleName methodName args
  trampolineSig hasteModuleName methodName ++
    (if isVoid then "\n  " ++ methodCall else "") ++
    "\n  return " ++ (if isVoid then "jsi::Value::undefined();" else methodCall) ++ "\n\x7d"

/-- One registration entry of a module, as recorded inside `generate`
(lines 218-226): method name plus parameter count. -/
structure MethodMeta where
  methodName : String
  paramCount : Nat

/-- One `methodMap_` line of `ModuleTemplate` (line 66). -/
def methodMapEntry (hasteModuleName : String) (m : MethodMeta) : String :=
  "  methodMap_[\"" ++ m.methodName ++ "\"] = MethodMetadata \x7b" ++
    toString m.paramCount ++ ", " ++ hostFunctionName hasteModuleName m.methodName ++ "\x7d;"

/-- Embedding of `ModuleTemplate` (GenerateModuleCpp.js lines 49-70). -/
def ModuleTemplate (hasteModuleName : String) (hostFunctions : List String)
    (moduleName : String) (methods : List MethodMeta) : String :=
  String.intercalate "\n" hostFunctions ++ "\n\n" ++
    hasteModuleName ++ "CxxSpecJSI::" ++ hasteModuleName ++
    "CxxSpecJSI(std::shared_ptr<CallInvoker> jsInvoker)\n  : TurboModule(\"" ++
    moduleName ++ "\", jsInvoker) \x7b\n" ++
    String.intercalate "\n" (methods.map (methodMapEntry hasteModuleName)) ++ "\n\x7d"

/-- Embedding of `FileTemplate` (GenerateModuleCpp.js lines 72-100). -/
def FileTemplate (libraryName : String) (modules : String) : String :=
  "/**\n * This code was generated by [react-native-codegen](https://www.npmjs.com/package/react-native-codegen).\n *\n * Do not edit this file as changes may cause incorrect behavior and will be lost\n * once the code is regenerated.\n *\n * @generated by codegen project: GenerateModuleH.js\n */\n\n#include \"" ++
    libraryName ++
    "JSI.h\"\n\nnamespace facebook \x7b\nnamespace react \x7b\n\n" ++
    modules ++
    "\n\n\n\x7d // namespace react\n\x7d // namespace facebook\n"

/-- JS `Array.prototype.map` whose callback may throw: collect the results in
order, or surface the first thrown error. -/
def mapExcept (f : α → Except ε β) : List α → Except ε (List β)
  | [] => Except.ok []
  | a :: l =>
    match f a with
    | Except.error e => Except.error e
    | Except.ok b =>
      match mapExcept f l with
      | Except.error e => Except.error e
      | Except.ok bs => Except.ok (b :: bs)

/-- The indexed `params.map((p, i) => serializeArg(p, i, resolveAlias))` of
`serializePropertyIntoHostFunction` (lines 180-182), generalized over the
starting index. -/
def serializeArgsFrom (resolveAlias : String → Except String TypeAnnot) :
    Nat → List (String × TypeAnnot) → Except String (List String)
  | _, [] => Except.ok []
  | i, p :: rest =>
    match serializeArg p i resolveAlias with
    | Except.error e => Except.error e
    | Except.ok e =>
      match serializeArgsFrom resolveAlias (i + 1) rest with
      | Except.error e2 => Except.error e2
      | Except.ok es => Except.ok (e :: es)

/-- Serialization of a whole parameter list, positions starting at 0. -/
def serializeArgs (params : List (String × TypeAnnot))
    (resolveAlias : String → Except String TypeAnnot) : Except String (List String) :=
  serializeArgsFrom resolveAlias 0 params

/-- A `NativeModulePropertyShape`: method name plus its (possibly nullable)
function type annotation. -/
structure PropertyShape where
  name : String
  typeAnnot : TypeAnnot

/-- Embedding of `serializePropertyIntoHostFunction` (GenerateModuleCpp.js
lines 167-185): unwrap the property type annotation, compute `isVoid` from
the return annotation tag, serialize every parameter at its position, and
assemble the trampoline.  A property whose unwrapped annotation is not a
function type has no `params`/`returnTypeAnnotation` fields; in JS the field
access raises a TypeError, embedded here as an error value. -/
def serializePropertyIntoHostFunction (hasteModuleName : String)
    (property : PropertyShape)
    (resolveAlias : String → Except String TypeAnnot) : Except String String :=
  match (unwrapNullable property.typeAnnot).1 with
  | .functionTypeAnnot params returnTypeAnnot =>
    match serializeArgs params resolveAlias with
    | Except.error e => Except.error e
    | Except.ok args =>
      Except.ok (HostFunctionTemplate hasteModuleName property.name
        (typeTag returnTypeAnnot == "VoidTypeAnnotation") args)
  | _ => Except.error "TypeError: property type annotation is not a function type"

/-- One native module of the schema: its alias table, its ordered property
list, and its declared external names (`moduleNames`). -/
structure NativeModule where
  aliases : List (String × TypeAnnot)
  properties : List PropertyShape
  moduleNames : List String

/-- The schema consumed by `generate`: an ordered mapping from haste module
name to native module (JS object key insertion order). -/
structure SchemaType where
  modules : List (String × NativeModule)

/-- Modelled from the spec: `getModules` (from `generators/modules/Utils.js`,
not under `src/`) extracts the module-identifier-to-Module-Spec mapping from
the schema (section 3). -/
def getModules (schema : SchemaType) : List (String × NativeModule) :=
  schema.modules

/-- The registration metadata computed per property inside `generate`
(lines 218-226): unwrap the property annotation and record the method name
and the parameter count. -/
def methodMetaOf (property : PropertyShape) : Except String MethodMeta :=
  match (unwrapNullable property.typeAnnot).1 with
  | .functionTypeAnnot params _ => Except.ok ⟨property.name, params.length⟩
  | _ => Except.error "TypeError: property type annotation is not a function type"

/-- The per-module body of `generate` (lines 195-228): build the alias
resolver, serialize every property into a trampoline, collect registration
metadata, and assemble the module block.  `moduleNames[0]` on an empty JS
array is `undefined`, which a template literal renders as the string
`undefined`; hence `headD "undefined"`. -/
def moduleBlock (hasteModuleName : String) (nativeModule : NativeModule) :
    Except String String :=
  match mapExcept
      (fun property => serializePropertyIntoHostFunction hasteModuleName property
        (createAliasResolver nativeModule.aliases))
      nativeModule.properties with
  | Except.error e => Except.error e
  | Except.ok hostFunctions =>
    match mapExcept methodMetaOf nativeModule.properties with
    | Except.error e => Except.error e
    | Except.ok methods =>
      Except.ok (ModuleTemplate hasteModuleName hostFunctions
        (nativeModule.moduleNames.headD "undefined") methods)

/-- Embedding of `generate` (GenerateModuleCpp.js lines 187-238): map every
module of the schema to its block in order, join with newlines, wrap in the
file boilerplate, and return the single filename-to-text mapping.  The
`packageName` and `assumeNonnull` parameters are accepted and never read,
exactly as in the source. -/
def generate (libraryName : String) (schema : SchemaType)
    (packageName : Option String) (assumeNonnull : Bool) :
    Except String (List (String × String)) :=
  match mapExcept (fun m => moduleBlock m.1 m.2) (getModules schema) with
  | Except.error e => Except.error e
  | Except.ok moduleBlocks =>
    Except.ok [(libraryName ++ "JSI-generated.cpp",
      FileTemplate libraryName (String.intercalate "\n" moduleBlocks))]

end RNCodegen

namespace UserFlowModel

/-- The `AUTO_INSTANCE_KEY` sentinel of UserFlow.js (line 13).  JS numbers
carry no arithmetic in this module, so they are embedded as `Int`. -/
def AUTO_INSTANCE_KEY : Int := -1

/-- The `FlowId` record of UserFlow.js. -/
structure FlowId where
  markerId : Int
  instanceKey : Int

/-- The `string | boolean` union accepted by `addAnnotation`. -/
inductive AnnotValue where
  | str (s : String)
  | bool (b : Bool)

/-- The options record taken by `start`. -/
structure StartOptions where
  triggerSource : String
  cancelOnBackground : Bool

/-- One invocation of a native entry point, with the exact arguments
forwarded.  `P` is the opaque `PointData` payload type, threaded through
unmodified. -/
inductive NativeCall (P : Type) where
  | start (markerId instanceKey : Int) (triggerSource : String) (cancelOnBackground : Bool)
  | addAnnot (markerId instanceKey : Int) (annotName : String) (annotValue : AnnotValue)
  | addPoint (markerId instanceKey : Int) (pointName : String) (data : Option P)
  | endSuccess (markerId instanceKey : Int)
  | endFail (markerId instanceKey : Int) (errorName : String) (debugInfo : Option String)
  | endCancel (markerId instanceKey : Int) (cancelReason : String)

/-- Which of the optionally-installed `global.nativeUserFlow*` entry points
exist.  `nextInstanceKey` carries the installed function itself, because
`newFlowId` uses its return value; the other entry points only need an
installed/absent flag, their effect being recorded as a `NativeCall`. -/
structure NativeEnv where
  nextInstanceKey : Option (Int → Int)
  startInstalled : Bool
  addAnnotInstalled : Bool
  addPointInstalled : Bool
  endSuccessInstalled : Bool
  endFailInstalled : Bool
  endCancelInstalled : Bool

/-- Embedding of `UserFlow.newFlowId` (UserFlow.js lines 52-67): when the
instance key is the AUTO sentinel, resolve it through the optional native
entry point, defaulting to 0 when that entry point is absent. -/
def newFlowId (env : NativeEnv) (markerId : Int) (instanceKey : Int) : FlowId :=
  let resolvedInstanceKey :=
    if instanceKey = AUTO_INSTANCE_KEY then
      match env.nextInstanceKey with
      | some f => f markerId
      | none => 0
    else instanceKey
  ⟨markerId, resolvedInstanceKey⟩

/-- Embedding of `UserFlow.start` (lines 80-91): forward to the native entry
point when installed, else do nothing.  The returned list is the trace of
native calls made. -/
def start {P : Type} (env : NativeEnv) (flowId : FlowId) (options : StartOptions) :
    List (NativeCall P) :=
  if env.startInstalled then
    [NativeCall.start flowId.markerId flowId.instanceKey
      options.triggerSource options.cancelOnBackground]
  else []

/-- Embedding of `UserFlow.addAnnotation` (lines 93-106). -/
def addAnnot {P : Type} (env : NativeEnv) (flowId : FlowId)
    (annotName : String) (annotValue : AnnotValue) : List (NativeCall P) :=
  if env.addAnnotInstalled then
    [NativeCall.addAnnot flowId.markerId flowId.instanceKey annotName annotValue]
  else []

/-- Embedding of `UserFlow.addPoint` (lines 108-117). -/
def addPoint {P : Type} (env : NativeEnv) (flowId : FlowId)
    (pointName : String) (data : Option P) : List (NativeCall P) :=
  if env.addPointInstalled then
    [NativeCall.addPoint flowId.markerId flowId.instanceKey pointName data]
  else []

/-- Embedding of `UserFlow.endSuccess` (lines 119-123). -/
def endSuccess {P : Type} (env : NativeEnv) (flowId : FlowId) : List (NativeCall P) :=
  if env.endSuccessInstalled then
    [NativeCall.endSuccess flowId.markerId flowId.instanceKey]
  else []

/-- Embedding of `UserFlow.endFailure` (lines 132-145). -/
def endFailure {P : Type} (env : NativeEnv) (flowId : FlowId)
    (errorName : String) (debugInfo : Option String) : List (NativeCall P) :=
  if env.endFailInstalled then
    [NativeCall.endFail flowId.markerId flowId.instanceKey errorName debugInfo]
  else []

/-- Embedding of `UserFlow.endCancel` (lines 147-155). -/
def endCancel {P : Type} (env : NativeEnv) (flowId : FlowId)
    (cancelReason : String) : List (NativeCall P) :=
  if env.endCancelInstalled then
    [NativeCall.endCancel flowId.markerId flowId.instanceKey cancelReason]
  else []

end UserFlowModel

namespace RNCodegen

/-- Does the annotation carry the outermost nullability wrapper? -/
def isNullableWrapped : TypeAnnot → Bool
  | .nullableTypeAnnot _ => true
  | _ => false

/-- A concrete resolver built from an empty alias table, used to instantiate
theorems at concrete inputs. -/
def emptyResolver : String → Except String TypeAnnot :=
  createAliasResolver []

/-- Optionally apply the nullability wrapper. -/
def nullableIf (nb : Bool) (t : TypeAnnot) : TypeAnnot :=
  if nb then TypeAnnot.nullableTypeAnnot t else t

theorem unwrap_not_wrapped {t : TypeAnnot} (h : isNullableWrapped t = false) :
    unwrapNullable t = (t, false) := by
  cases t <;> simp_all [isNullableWrapped, unwrapNullable]

theorem serializeArg_eq_ok (arg : String × TypeAnnot) (i : Nat)
    (ra : String → Except String TypeAnnot) (realT : TypeAnnot) (s : String)
    (hres : resolveParamAnnot ra (unwrapNullable arg.2).1 = Except.ok realT)
    (hsuf : conversionSuffix realT = some s) :
    serializeArg arg i ra = Except.ok (wrapExpr i (unwrapNullable arg.2).2 s) := by
  simp only [serializeArg, hres, hsuf]

theorem serializeArg_eq_error (arg : String × TypeAnnot) (i : Nat)
    (ra : String → Except String TypeAnnot) (realT : TypeAnnot)
    (hres : resolveParamAnnot ra (unwrapNullable arg.2).1 = Except.ok realT)
    (hsuf : conversionSuffix realT = none) :
    serializeArg arg i ra =
      Except.error ("Unknown prop type for \"" ++ arg.1 ++ ", found: " ++
        unmatchedTag realT ++ "\"") := by
  simp only [serializeArg, hres, hsuf]

theorem serializeArg_resolve_error (arg : String × TypeAnnot) (i : Nat)
    (ra : String → Except String TypeAnnot) (msg : String)
    (hres : resolveParamAnnot ra (unwrapNullable arg.2).1 = Except.error msg) :
    serializeArg arg i ra = Except.error msg := by
  simp only [serializeArg, hres]

theorem wrapExpr_true (i : Nat) (s : String) :
    wrapExpr i true s =
      "args[" ++ toString i ++ "]" ++ ".isNull() || " ++
        ("args[" ++ toString i ++ "]") ++
        ".isUndefined() ? std::nullopt : std::make_optional(" ++
        ("args[" ++ toString i ++ "]" ++ s) ++ ")" := rfl

/-- C1: a parameter whose alias-resolved, nullability-unwrapped annotation has
no matching serialization rule — including a reserved-identifier annotation
with an unrecognized reserved name — makes `serializeArg` fail with the fatal
message naming the parameter and the offending variant tag or reserved name;
no expression is returned. -/
theorem serializeArg_unmatched_fatal (arg : String × TypeAnnot) (i : Nat)
    (ra : String → Except String TypeAnnot) (realT : TypeAnnot)
    (hres : resolveParamAnnot ra (unwrapNullable arg.2).1 = Except.ok realT)
    (hsuf : conversionSuffix realT = none) :
    serializeArg arg i ra =
      Except.error ("Unknown prop type for \"" ++ arg.1 ++ ", found: " ++
        unmatchedTag realT ++ "\"") := by
  simp only [serializeArg, hres, hsuf]

/-- Witness for C1: a synthetic unknown variant and, conjoined, an
unrecognized reserved name both produce the fatal message. -/
theorem serializeArg_unmatched_fatal_witness :
    serializeArg ("x", TypeAnnot.unknownTypeAnnot "EnumDeclaration") 0 emptyResolver =
      Except.error ("Unknown prop type for \"" ++ "x" ++ ", found: " ++
        unmatchedTag (TypeAnnot.unknownTypeAnnot "EnumDeclaration") ++ "\"") ∧
    serializeArg ("y", TypeAnnot.reservedTypeAnnot "Oddity") 3 emptyResolver =
      Except.error ("Unknown prop type for \"" ++ "y" ++ ", found: " ++
        unmatchedTag (TypeAnnot.reservedTypeAnnot "Oddity") ++ "\"") :=
  ⟨serializeArg_unmatched_fatal ("x", TypeAnnot.unknownTypeAnnot "EnumDeclaration") 0
      emptyResolver (TypeAnnot.unknownTypeAnnot "EnumDeclaration") rfl rfl,
    serializeArg_unmatched_fatal ("y", TypeAnnot.reservedTypeAnnot "Oddity") 3
      emptyResolver (TypeAnnot.reservedTypeAnnot "Oddity") rfl rfl⟩

/-- C2: a nullable parameter at index `i` serializes to one conditional
expression testing the boundary value at index `i` for null-or-undefined,
with `std::nullopt` in the absent branch and the converted value in the
other; the same parameter without the wrapper serializes to the bare
conversion expression. -/
theorem serializeArg_nullable_conditional (argName : String) (t realT : TypeAnnot)
    (i : Nat) (ra : String → Except String TypeAnnot) (s : String)
    (hnw : isNullableWrapped t = false)
    (hres : resolveParamAnnot ra t = Except.ok realT)
    (hsuf : conversionSuffix realT = some s) :
    serializeArg (argName, TypeAnnot.nullableTypeAnnot t) i ra =
      Except.ok ("args[" ++ toString i ++ "]" ++ ".isNull() || " ++
        ("args[" ++ toString i ++ "]") ++
        ".isUndefined() ? std::nullopt : std::make_optional(" ++
        ("args[" ++ toString i ++ "]" ++ s) ++ ")") ∧
    serializeArg (argName, t) i ra =
      Except.ok ("args[" ++ toString i ++ "]" ++ s) := by
  have hu : unwrapNullable t = (t, false) := unwrap_not_wrapped hnw
  constructor
  · simp only [serializeArg, unwrapNullable, hu, hres, hsuf, wrapExpr, if_true]
  · simp only [serializeArg, hu, hres, hsuf, wrapExpr]
    simp

/-- Witness for C2 at a concrete nullable string parameter at index 1. -/
theorem serializeArg_nullable_conditional_witness :
    serializeArg ("s", TypeAnnot.nullableTypeAnnot TypeAnnot.stringTypeAnnot) 1
        emptyResolver =
      Except.ok ("args[" ++ toString 1 ++ "]" ++ ".isNull() || " ++
        ("args[" ++ toString 1 ++ "]") ++
        ".isUndefined() ? std::nullopt : std::make_optional(" ++
        ("args[" ++ toString 1 ++ "]" ++ ".asString(rt)") ++ ")") ∧
    serializeArg ("s", TypeAnnot.stringTypeAnnot) 1 emptyResolver =
      Except.ok ("args[" ++ toString 1 ++ "]" ++ ".asString(rt)") :=
  serializeArg_nullable_conditional "s" TypeAnnot.stringTypeAnnot
    TypeAnnot.stringTypeAnnot 1 emptyResolver ".asString(rt)" rfl rfl rfl

/-- C8: the generic number, float, double, and 32-bit integer annotations are
serialization-equivalent: for any parameter name, any index, any resolver,
and either nullability, `serializeArg` yields the same result on all four. -/
theorem numeric_flavors_equivalent (argName : String) (i : Nat)
    (ra : String → Except String TypeAnnot) (nb : Bool) :
    serializeArg (argName, nullableIf nb TypeAnnot.numberTypeAnnot) i ra =
      serializeArg (argName, nullableIf nb TypeAnnot.floatTypeAnnot) i ra ∧
    serializeArg (argName, nullableIf nb TypeAnnot.numberTypeAnnot) i ra =
      serializeArg (argName, nullableIf nb TypeAnnot.doubleTypeAnnot) i ra ∧
    serializeArg (argName, nullableIf nb TypeAnnot.numberTypeAnnot) i ra =
      serializeArg (argName, nullableIf nb TypeAnnot.int32TypeAnnot) i ra := by
  cases nb <;> exact ⟨rfl, rfl, rfl⟩

/-- C6: trampoline identifiers are a deterministic function of the module
identifier and the method name, and two distinct module identifiers give a
method of one same name two distinct trampoline identifiers. -/
theorem trampoline_names_distinct (m1 m2 methodName : String) (hne : m1 ≠ m2) :
    hostFunctionName m1 methodName ≠ hostFunctionName m2 methodName := by
  intro h
  apply hne
  have hd := congrArg String.data h
  simp only [hostFunctionName, String.data_append, List.append_assoc] at hd
  have hm := List.append_cancel_left hd
  rw [← List.append_assoc, ← List.append_assoc] at hm
  have hmm := List.append_cancel_right hm
  exact String.ext (List.append_cancel_right hmm)

/-- Witness for C6 at two concrete modules both declaring `foo`. -/
theorem trampoline_names_distinct_witness :
    hostFunctionName "NativeModuleA" "foo" ≠ hostFunctionName "NativeModuleB" "foo" :=
  trampoline_names_distinct "NativeModuleA" "NativeModuleB" "foo" (by decide)

end RNCodegen

namespace RNCodegen

/-- C3: a Property Spec with void return emits a trampoline whose body is the
native call as a standalone statement followed by a return of
`jsi::Value::undefined()`; a non-void return emits a body that is a single
return of the call expression. -/
theorem trampoline_void_vs_value (hasteModuleName propertyName : String)
    (params : List (String × TypeAnnot))
    (ra : String → Except String TypeAnnot) (args : List String)
    (hargs : serializeArgs params ra = Except.ok args) :
    (∀ ret : TypeAnnot, typeTag ret = "VoidTypeAnnotation" →
      serializePropertyIntoHostFunction hasteModuleName
          ⟨propertyName, TypeAnnot.functionTypeAnnot params ret⟩ ra =
        Except.ok (trampolineSig hasteModuleName propertyName ++
          ("\n  " ++ methodCallOf hasteModuleName propertyName args) ++
          "\n  return " ++ "jsi::Value::undefined();" ++ "\n\x7d")) ∧
    (∀ ret : TypeAnnot, typeTag ret ≠ "VoidTypeAnnotation" →
      serializePropertyIntoHostFunction hasteModuleName
          ⟨propertyName, TypeAnnot.functionTypeAnnot params ret⟩ ra =
        Except.ok (trampolineSig hasteModuleName propertyName ++
          "\n  return " ++ methodCallOf hasteModuleName propertyName args ++ "\n\x7d")) := by
  constructor
  · intro ret hret
    have hb : (typeTag ret == "VoidTypeAnnotation") = true := by
      simp [hret]
    simp only [serializePropertyIntoHostFunction, unwrapNullable, hargs, hb,
      HostFunctionTemplate, if_true]
  · intro ret hret
    have hb : (typeTag ret == "VoidTypeAnnotation") = false := by
      simp [hret]
    simp only [serializePropertyIntoHostFunction, unwrapNullable, hargs, hb,
      HostFunctionTemplate]
    simp [String.append_assoc]

/-- Witness for C3 at a concrete parameterless method, in both return modes. -/
theorem trampoline_void_vs_value_witness :
    serializePropertyIntoHostFunction "NativeSample"
        ⟨"ping", TypeAnnot.functionTypeAnnot [] TypeAnnot.voidTypeAnnot⟩ emptyResolver =
      Except.ok (trampolineSig "NativeSample" "ping" ++
        ("\n  " ++ methodCallOf "NativeSample" "ping" []) ++
        "\n  return " ++ "jsi::Value::undefined();" ++ "\n\x7d") ∧
    serializePropertyIntoHostFunction "NativeSample"
        ⟨"ping", TypeAnnot.functionTypeAnnot [] TypeAnnot.numberTypeAnnot⟩ emptyResolver =
      Except.ok (trampolineSig "NativeSample" "ping" ++
        "\n  return " ++ methodCallOf "NativeSample" "ping" [] ++ "\n\x7d") :=
  ⟨(trampoline_void_vs_value "NativeSample" "ping" [] emptyResolver [] rfl).1
      TypeAnnot.voidTypeAnnot rfl,
    (trampoline_void_vs_value "NativeSample" "ping" [] emptyResolver [] rfl).2
      TypeAnnot.numberTypeAnnot (by decide)⟩

theorem serializeArgsFrom_length (ra : String → Except String TypeAnnot) :
    ∀ (start : Nat) (params : List (String × TypeAnnot)) (args : List String),
      serializeArgsFrom ra start params = Except.ok args →
      args.length = params.length := by
  intro start params
  induction params generalizing start with
  | nil =>
    intro args h
    simp only [serializeArgsFrom] at h
    injection h with h
    rw [← h]
    rfl
  | cons p rest ih =>
    intro args h
    simp only [serializeArgsFrom] at h
    cases hp : serializeArg p start ra with
    | error e => rw [hp] at h; cases h
    | ok e =>
      rw [hp] at h
      cases hr : serializeArgsFrom ra (start + 1) rest with
      | error e2 => rw [hr] at h; cases h
      | ok es =>
        rw [hr] at h
        injection h with h
        rw [← h]
        simp [ih (start + 1) es hr]

/-- C4: the registration entry of a Property Spec with `k` parameters records
arity exactly `k`; a successful serialization of the parameter list yields
one expression per parameter; and the expression produced for sequence
position `i` reads the boundary value at positional index `i` (it begins
with the accessor for index `i`), so a trampoline with `k` parameters reads
exactly indices 0 through k-1. -/
theorem arity_and_index_fidelity (propertyName : String)
    (params : List (String × TypeAnnot)) (ret : TypeAnnot)
    (ra : String → Except String TypeAnnot) :
    methodMetaOf ⟨propertyName, TypeAnnot.functionTypeAnnot params ret⟩ =
      Except.ok ⟨propertyName, params.length⟩ ∧
    (∀ args : List String, serializeArgs params ra = Except.ok args →
      args.length = params.length) ∧
    (∀ (arg : String × TypeAnnot) (i : Nat) (e : String),
      serializeArg arg i ra = Except.ok e →
      ∃ rest, e = "args[" ++ toString i ++ "]" ++ rest) := by
  refine ⟨rfl, fun args h => serializeArgsFrom_length ra 0 params args h, ?_⟩
  intro arg i e he
  cases hres : resolveParamAnnot ra (unwrapNullable arg.2).1 with
  | error er => rw [serializeArg_resolve_error arg i ra er hres] at he; cases he
  | ok realT =>
    cases hsuf : conversionSuffix realT with
    | none => rw [serializeArg_eq_error arg i ra realT hres hsuf] at he; cases he
    | some s =>
      rw [serializeArg_eq_ok arg i ra realT s hres hsuf] at he
      injection he with he
      rw [← he]
      cases hnb : (unwrapNullable arg.2).2 with
      | false =>
        exact ⟨s, rfl⟩
      | true =>
        refine ⟨".isNull() || " ++ ("args[" ++ toString i ++ "]") ++
          ".isUndefined() ? std::nullopt : std::make_optional(" ++
          ("args[" ++ toString i ++ "]" ++ s) ++ ")", ?_⟩
        rw [wrapExpr_true]
        simp only [String.append_assoc]

/-- Witness for C4: the end-to-end example property
`add(a: number, b: ?number): number`. -/
theorem arity_and_index_fidelity_witness :
    methodMetaOf ⟨"add", TypeAnnot.functionTypeAnnot
        [("a", TypeAnnot.numberTypeAnnot),
         ("b", TypeAnnot.nullableTypeAnnot TypeAnnot.numberTypeAnnot)]
        TypeAnnot.numberTypeAnnot⟩ =
      Except.ok ⟨"add", 2⟩ ∧
    ∃ rest, "args[0].asNumber()" = "args[" ++ toString 0 ++ "]" ++ rest := by
  have h := arity_and_index_fidelity "add"
    [("a", TypeAnnot.numberTypeAnnot),
     ("b", TypeAnnot.nullableTypeAnnot TypeAnnot.numberTypeAnnot)]
    TypeAnnot.numberTypeAnnot emptyResolver
  exact ⟨h.1, h.2.2 ("a", TypeAnnot.numberTypeAnnot) 0 "args[0].asNumber()" rfl⟩

/-- C5: generation is deterministic — the same library name and Schema value
give byte-identical output on any two runs — and the output file text is
assembled from the per-module blocks in schema iteration order. -/
theorem generate_deterministic (libraryName : String) (schema : SchemaType)
    (packageName : Option String) (assumeNonnull : Bool) :
    generate libraryName schema packageName assumeNonnull =
      generate libraryName schema packageName assumeNonnull ∧
    ∀ bs : List String,
      mapExcept (fun m => moduleBlock m.1 m.2) (getModules schema) = Except.ok bs →
      generate libraryName schema packageName assumeNonnull =
        Except.ok [(libraryName ++ "JSI-generated.cpp",
          FileTemplate libraryName (String.intercalate "\n" bs))] := by
  refine ⟨rfl, ?_⟩
  intro bs h
  simp only [generate, h]

/-- Witness for C5 at a one-module, no-property schema. -/
theorem generate_deterministic_witness :
    generate "Sample" ⟨[("NativeSample", ⟨[], [], ["Sample"]⟩)]⟩ none false =
      generate "Sample" ⟨[("NativeSample", ⟨[], [], ["Sample"]⟩)]⟩ none false ∧
    generate "Sample" ⟨[("NativeSample", ⟨[], [], ["Sample"]⟩)]⟩ none false =
      Except.ok [("Sample" ++ "JSI-generated.cpp",
        FileTemplate "Sample" (String.intercalate "\n"
          [ModuleTemplate "NativeSample" [] "Sample" []]))] :=
  ⟨(generate_deterministic "Sample" ⟨[("NativeSample", ⟨[], [], ["Sample"]⟩)]⟩ none false).1,
    (generate_deterministic "Sample" ⟨[("NativeSample", ⟨[], [], ["Sample"]⟩)]⟩ none false).2
      [ModuleTemplate "NativeSample" [] "Sample" []] rfl⟩

theorem moduleBlock_take_one (hasteModuleName : String) (nm : NativeModule) :
    moduleBlock hasteModuleName ⟨nm.aliases, nm.properties, nm.moduleNames.take 1⟩ =
      moduleBlock hasteModuleName nm := by
  cases nm with
  | mk aliases properties moduleNames => cases moduleNames <;> rfl

theorem mapExcept_congr {α β ε : Type} (f : α → α) (g : α → Except ε β)
    (hg : ∀ x, g (f x) = g x) : ∀ l : List α, mapExcept g (l.map f) = mapExcept g l := by
  intro l
  induction l with
  | nil => rfl
  | cons a l ih => simp only [List.map_cons, mapExcept, hg a, ih]

/-- C7: only the first declared external name of a module is used as the
registered module name — truncating every module name list to its first
element leaves the generated output unchanged, so later declared names have
no effect and declaring several is not an error. -/
theorem generate_first_name_wins (libraryName : String)
    (mods : List (String × NativeModule))
    (packageName : Option String) (assumeNonnull : Bool) :
    generate libraryName ⟨mods⟩ packageName assumeNonnull =
      generate libraryName
        ⟨mods.map (fun m => (m.1, ⟨m.2.aliases, m.2.properties, m.2.moduleNames.take 1⟩))⟩
        packageName assumeNonnull := by
  simp only [generate, getModules]
  rw [mapExcept_congr
    (fun m => (m.1, ⟨m.2.aliases, m.2.properties, m.2.moduleNames.take 1⟩))
    (fun m => moduleBlock m.1 m.2)
    (fun m => moduleBlock_take_one m.1 m.2) mods]

/-- C10: the output of `generate` does not depend on the `packageName` and
`assumeNonnull` parameters: runs differing only there return identical
filename-to-text mappings. -/
theorem generate_ignores_package_and_nonnull (libraryName : String)
    (schema : SchemaType) (p1 p2 : Option String) (a1 a2 : Bool) :
    generate libraryName schema p1 a1 = generate libraryName schema p2 a2 := rfl

end RNCodegen

namespace UserFlowModel

/-- C9: every operation of the UserFlow API forwards its arguments to its
optionally-absent native entry point when that entry point is installed and
performs no native call at all when it is absent; `newFlowId` resolves the
AUTO sentinel through the optional native key generator (0 when absent) and
passes a concrete instance key through unchanged.  Every operation is a pure
function of its arguments and the installed entry points — no internal state
exists in the model. -/
theorem userflow_pure_passthrough {P : Type} (env : NativeEnv) (flowId : FlowId)
    (options : StartOptions) (annotName : String) (annotValue : AnnotValue)
    (pointName : String) (data : Option P) (markerId : Int)
    (errorName : String) (debugInfo : Option String) (cancelReason : String) :
    (start env flowId options =
      (if env.startInstalled then
        [NativeCall.start flowId.markerId flowId.instanceKey
          options.triggerSource options.cancelOnBackground]
      else ([] : List (NativeCall P)))) ∧
    (addAnnot env flowId annotName annotValue =
      (if env.addAnnotInstalled then
        [NativeCall.addAnnot flowId.markerId flowId.instanceKey annotName annotValue]
      else ([] : List (NativeCall P)))) ∧
    (addPoint env flowId pointName data =
      (if env.addPointInstalled then
        [NativeCall.addPoint flowId.markerId flowId.instanceKey pointName data]
      else [])) ∧
    (endSuccess env flowId =
      (if env.endSuccessInstalled then
        [NativeCall.endSuccess flowId.markerId flowId.instanceKey]
      else ([] : List (NativeCall P)))) ∧
    (endFailure env flowId errorName debugInfo =
      (if env.endFailInstalled then
        [NativeCall.endFail flowId.markerId flowId.instanceKey errorName debugInfo]
      else ([] : List (NativeCall P)))) ∧
    (endCancel env flowId cancelReason =
      (if env.endCancelInstalled then
        [NativeCall.endCancel flowId.markerId flowId.instanceKey cancelReason]
      else ([] : List (NativeCall P)))) ∧
    (newFlowId env markerId AUTO_INSTANCE_KEY =
      ⟨markerId,
        match env.nextInstanceKey with
        | some f => f markerId
        | none => 0⟩) ∧
    (∀ k : Int, k ≠ AUTO_INSTANCE_KEY → newFlowId env markerId k = ⟨markerId, k⟩) := by
  refine ⟨rfl, rfl, rfl, rfl, rfl, rfl, rfl, ?_⟩
  intro k hk
  simp [newFlowId, hk]

/-- A concrete native environment with some entry points installed and some
absent, used to instantiate the pass-through theorem. -/
def sampleEnv : NativeEnv :=
  ⟨some (fun m => m + 7), true, false, true, false, true, false⟩

/-- Witness for C9 at `sampleEnv` with concrete arguments. -/
theorem userflow_pure_passthrough_witness :
    (5 : Int) ≠ AUTO_INSTANCE_KEY ∧
    newFlowId sampleEnv 9 5 = ⟨9, 5⟩ ∧
    start sampleEnv ⟨1, 2⟩ ⟨"user_click", true⟩ =
      (if sampleEnv.startInstalled then
        [NativeCall.start 1 2 "user_click" true]
      else ([] : List (NativeCall Unit))) :=
  ⟨by decide,
    (userflow_pure_passthrough sampleEnv ⟨1, 2⟩ ⟨"user_click", true⟩ "cached"
      (AnnotValue.str "true") "reload" (none : Option Unit) 9 "io_error" none
      "backgrounded").2.2.2.2.2.2.2 5 (by decide),
    (userflow_pure_passthrough sampleEnv ⟨1, 2⟩ ⟨"user_click", true⟩ "cached"
      (AnnotValue.str "true") "reload" (none : Option Unit) 9 "io_error" none
      "backgrounded").1⟩

end UserFlowModel
